import Mathlib

/-!
Verification development for the mini-shop order-fulfilment saga
(repository: ecommerce-test-project).

The repository contains five Node.js services.  The definitions below are a
shallow embedding of the code that the specification's testable properties
talk about:

* the payment gateway simulator and the two payment-processor retry loops
  (`payment-svc/src/index.js`, and the second payment variant concatenated
  into `catalog-svc/src/index.js`),
* the order orchestrator's `POST /order` handler
  (`order-svc/src/index.js`; the variant in `src/unnamed/part_003` differs
  only in how a publish failure is reported to the client),
* the confirmation consumer of `email-worker/src/index.js`
  (`processOrderConfirmed` and the `channel.consume` callback of
  `startConsumer`).

Modelling conventions:

* JavaScript truthiness tests on request fields are embedded as explicit
  `Option`/emptiness checks (`none` = field absent, `some ""` / `some 0`
  = present but falsy).
* Monetary amounts are rationals; timestamps are opaque naturals.
* Network / store / broker effects are made explicit: the gateway's
  decision per attempt is an injected function `Nat → GatewayOutcome`
  (the spec treats the simulator as "an injectable decision function"),
  the orchestrator records an event trace and takes the infrastructure
  outcomes (payment RPC result, store availability, broker availability)
  as parameters, and the consumer takes the store-fetch and side-effect
  outcomes as parameters.
* `uuidv4()` results are passed in as parameters (`tid`, `orderId`);
  their freshness/uniqueness is an assumption about the uuid library,
  so cross-call distinctness is stated under a distinctness hypothesis.
* Artificial latencies and backoff delays have no observable effect on
  the values computed and are not modelled.
-/

/-- Outcome of one call to the simulated payment gateway, as seen by the
retry loop: the returned business decision, or the call throwing
(infrastructure failure). -/
inductive GatewayOutcome where
  | approved
  | declined
  | thrown (msg : String)
deriving DecidableEq

/-- Payment status of a charge result (proto enum APPROVED/DECLINED/ERROR;
the Elastic-APM variant uses the enum-name strings, the OTel variant the
numeric constants — both map to the same three-valued status). -/
inductive PayStatus where
  | approved
  | declined
  | error
deriving DecidableEq

/-- A charge result object.  Fields are optional because the JS result
objects do not always set them: the payment-svc variant's exhaustion
result `{status:'ERROR', message: lastError.message}` has no
`transaction_id` field, and its approved result has no `message`. -/
structure PayResult where
  status : PayStatus
  transaction_id : Option String
  message : Option String
deriving DecidableEq

/-- One attempt span of the retry loop: the labels
`payment.attempt` (1-based) and `payment.transaction_id` that the code
attaches to every attempt. -/
structure AttemptRec where
  attemptNumber : Nat
  transaction_id : String
deriving DecidableEq

/-- A full run of a charge call: the returned result plus the sequence of
attempts that were made. -/
structure ChargeRun where
  result : PayResult
  attempts : List AttemptRec
deriving DecidableEq

/-- `simulatePaymentGateway` as shipped (both copies:
`payment-svc/src/index.js` lines 84-128 and the payment variant inside
`catalog-svc/src/index.js` lines 536-568): every decline branch and the
random gateway-error branch are commented out, so after the artificial
delay the promise always resolves `STATUS.APPROVED`. -/
def simulatePaymentGateway (_amount : ℚ) : GatewayOutcome :=
  GatewayOutcome.approved

/-- The message attached to a failed attempt in the payment-svc variant:
a decline raises `Error('Payment declined by gateway')`, a gateway throw
keeps its own message. (`lastFailMsg .approved` is never used.) -/
def lastFailMsg : GatewayOutcome → String
  | GatewayOutcome.approved => ""
  | GatewayOutcome.declined => "Payment declined by gateway"
  | GatewayOutcome.thrown m => m

/-- Retry loop of `processPaymentWithRetry` in `payment-svc/src/index.js`
(lines 167-274), Elastic-APM variant.  `outs` is the sequence of gateway
decisions still available to the remaining attempts (the loop queries
the gateway once per attempt, so only a prefix is ever consumed),
`attempt` the 0-based attempt index.  An approved gateway result breaks
the loop with `{status:'APPROVED', transaction_id}`; a decline is turned
into `Error('Payment declined by gateway')` and — exactly like a gateway
throw — recorded as `lastError` and retried after a backoff; when the
attempts are exhausted the loop falls through to
`{status:'ERROR', message: lastError.message}` (note: no transaction_id
field on that result). -/
def apmLoop (tid : String) : List GatewayOutcome → Nat → String → ChargeRun
  | [], _, lastErrorMsg =>
      { result := { status := PayStatus.error
                    transaction_id := none
                    message := some lastErrorMsg }
        attempts := [] }
  | g :: rest, attempt, _ =>
      let att : AttemptRec := { attemptNumber := attempt + 1, transaction_id := tid }
      match g with
      | GatewayOutcome.approved =>
          { result := { status := PayStatus.approved
                        transaction_id := some tid
                        message := none }
            attempts := [att] }
      | GatewayOutcome.declined =>
          let r := apmLoop tid rest (attempt + 1) "Payment declined by gateway"
          { result := r.result, attempts := att :: r.attempts }
      | GatewayOutcome.thrown m =>
          let r := apmLoop tid rest (attempt + 1) m
          { result := r.result, attempts := att :: r.attempts }

/-- `processPaymentWithRetry` of `payment-svc/src/index.js`: generate the
transaction id once (`tid`, the `uuidv4()` draw), then run up to
`maxRetries = 3` attempts against the injected gateway decision
function. -/
def processPaymentWithRetryApm (gate : Nat → GatewayOutcome) (tid : String) : ChargeRun :=
  apmLoop tid [gate 0, gate 1, gate 2] 0 ""

/-- Retry loop of the second `processPaymentWithRetry`, the OTel variant
embedded in `catalog-svc/src/index.js` (lines 571-737).  Here an approved
or declined gateway decision is immediately terminal (the attempt callback
returns a non-null result, which the outer loop returns); only a thrown
gateway call yields `null` and is retried.  Exhaustion falls through to
`{status: ERROR, transaction_id, message:'Payment processing failed after
multiple attempts'}` — this variant keeps the transaction id on every
result. -/
def otelLoop (tid : String) : List GatewayOutcome → Nat → ChargeRun
  | [], _ =>
      { result := { status := PayStatus.error
                    transaction_id := some tid
                    message := some "Payment processing failed after multiple attempts" }
        attempts := [] }
  | g :: rest, attempt =>
      let att : AttemptRec := { attemptNumber := attempt + 1, transaction_id := tid }
      match g with
      | GatewayOutcome.approved =>
          { result := { status := PayStatus.approved
                        transaction_id := some tid
                        message := some "Payment approved" }
            attempts := [att] }
      | GatewayOutcome.declined =>
          { result := { status := PayStatus.declined
                        transaction_id := some tid
                        message := some "Payment declined by processor" }
            attempts := [att] }
      | GatewayOutcome.thrown _ =>
          let r := otelLoop tid rest (attempt + 1)
          { result := r.result, attempts := att :: r.attempts }

/-- The OTel-variant `processPaymentWithRetry`: one `uuidv4()` draw
(`tid`), then up to `maxRetries = 3` attempts.  (The `catch` branch that
returns a fresh uuid is reachable only when code outside the gateway call
throws, which nothing in the loop does; it is not modelled.) -/
def processPaymentWithRetryOtel (gate : Nat → GatewayOutcome) (tid : String) : ChargeRun :=
  otelLoop tid [gate 0, gate 1, gate 2] 0

/-! ## Order orchestrator (`order-svc/src/index.js`, `POST /order`) -/

/-- JavaScript truthiness of an optional string field: falsy when the
field is absent or the empty string. -/
def truthyStr : Option String → Bool
  | none => false
  | some s => s ≠ ""

/-- JavaScript truthiness of an optional integer field: falsy when the
field is absent or `0`. -/
def truthyInt : Option Int → Bool
  | none => false
  | some n => n ≠ 0

/-- JavaScript truthiness of an optional numeric (rational) field: falsy
when the field is absent or `0`. -/
def truthyRat : Option ℚ → Bool
  | none => false
  | some q => q ≠ 0

/-- `v || d` on an optional string, as used for
`productName || 'Unknown Product'`. -/
def jsOrStr (v : Option String) (d : String) : String :=
  match v with
  | none => d
  | some s => if s = "" then d else s

/-- Body of a `POST /order` request; every field may be absent. -/
structure OrderReq where
  productId : Option String
  productName : Option String
  quantity : Option Int
  amount : Option ℚ
  customerEmail : Option String
deriving DecidableEq

/-- Order lifecycle status. -/
inductive OrderStatus where
  | pending
  | confirmed
  | payment_failed
deriving DecidableEq

/-- The order document the orchestrator builds and persists. -/
structure Order where
  id : String
  productId : String
  productName : String
  quantity : Int
  amount : ℚ
  customerEmail : String
  status : OrderStatus
  paymentId : Option String
  createdAt : Nat
deriving DecidableEq

/-- Request validation of the `POST /order` handler:
`if (!productId || !quantity || !amount || !customerEmail)` — pure JS
truthiness, with no sign check on `quantity` or `amount`. -/
def validOrderReq (r : OrderReq) : Bool :=
  truthyStr r.productId && truthyInt r.quantity &&
    truthyRat r.amount && truthyStr r.customerEmail

/-- Validation of the api-gateway `POST /checkout` handler
(`api-gateway/src/index.js` lines 134-144):
`if (!productId || !quantity || !customerEmail)`. -/
def checkoutValid (productId : Option String) (quantity : Option Int)
    (customerEmail : Option String) : Bool :=
  truthyStr productId && truthyInt quantity && truthyStr customerEmail

/-- The pending order object constructed after validation
(`order-svc/src/index.js` lines 260-270). -/
def mkPendingOrder (r : OrderReq) (orderId : String) (now : Nat) : Order :=
  { id := orderId
    productId := r.productId.getD ""
    productName := jsOrStr r.productName "Unknown Product"
    quantity := r.quantity.getD 0
    amount := r.amount.getD 0
    customerEmail := r.customerEmail.getD ""
    status := OrderStatus.pending
    paymentId := none
    createdAt := now }

/-- Observable side effects of one `POST /order` request, in program
order: the payment RPC, document-store writes (`esClient.index` into the
`orders` index, keyed by the order id, with the success of the call), and
broker publishes of the confirmation event (with the success of the
call). -/
inductive Ev where
  | charge (orderId : String) (amount : ℚ)
  | esWrite (docId : String) (doc : Order) (ok : Bool)
  | publish (doc : Order) (ok : Bool)
deriving DecidableEq

/-- HTTP response of the `POST /order` handler (Elastic-APM variant):
400 `{error:'Missing required parameters'}`; 400
`{error:'Payment declined', orderId, status, message: paymentResult.message}`;
201 `{orderId, status}`; 500 `{error:'Failed to process order'}`. -/
inductive OrderResponse where
  | missingParams
  | paymentDeclined (orderId : String) (status : OrderStatus) (message : Option String)
  | created (orderId : String) (status : OrderStatus)
  | serverError
deriving DecidableEq

/-- Infrastructure outcomes injected into one `POST /order` run:
the payment RPC result (`none` models the gRPC call rejecting), whether
the document-store write succeeds, and whether the broker publish
succeeds. -/
structure Infra where
  rpc : Option PayResult
  persistOk : Bool
  publishOk : Bool

/-- The `POST /order` handler of `order-svc/src/index.js` (lines
245-386): validate by truthiness; construct the pending order; charge
once; on a non-APPROVED result persist the order as `payment_failed` and
answer 400 carrying the payment message; on APPROVED set
`status = 'confirmed'` and `paymentId = transaction_id`, persist, publish
the confirmation event, answer 201.  A store or publish failure throws
into the outer catch, which answers 500 and performs no further
writes.  (The `part_003` variant differs only after a publish failure:
its `publishOrderConfirmed` returns `false` instead of throwing, so the
client still gets 201; the persisted order is identical.) -/
def postOrder (req : OrderReq) (orderId : String) (now : Nat) (infra : Infra) :
    OrderResponse × List Ev :=
  if !validOrderReq req then
    (OrderResponse.missingParams, [])
  else
    let pending := mkPendingOrder req orderId now
    let amt := req.amount.getD 0
    match infra.rpc with
    | none => (OrderResponse.serverError, [Ev.charge orderId amt])
    | some pr =>
      if pr.status ≠ PayStatus.approved then
        let failed := { pending with status := OrderStatus.payment_failed }
        if infra.persistOk then
          (OrderResponse.paymentDeclined orderId OrderStatus.payment_failed pr.message,
            [Ev.charge orderId amt, Ev.esWrite orderId failed true])
        else
          (OrderResponse.serverError,
            [Ev.charge orderId amt, Ev.esWrite orderId failed false])
      else
        let confirmed := { pending with status := OrderStatus.confirmed
                                        paymentId := pr.transaction_id }
        if infra.persistOk then
          if infra.publishOk then
            (OrderResponse.created orderId OrderStatus.confirmed,
              [Ev.charge orderId amt, Ev.esWrite orderId confirmed true,
                Ev.publish confirmed true])
          else
            (OrderResponse.serverError,
              [Ev.charge orderId amt, Ev.esWrite orderId confirmed true,
                Ev.publish confirmed false])
        else
          (OrderResponse.serverError,
            [Ev.charge orderId amt, Ev.esWrite orderId confirmed false])

/-- Event is a document-store write for the given order id (attempted,
successful or not). -/
def isWriteFor (oid : String) : Ev → Bool
  | Ev.esWrite d _ _ => d = oid
  | _ => false

/-- Event is a broker publish of a confirmation event. -/
def isPublish : Ev → Bool
  | Ev.publish _ _ => true
  | _ => false

/-- Event is a payment RPC call. -/
def isCharge : Ev → Bool
  | Ev.charge _ _ => true
  | _ => false

/-- The document held by the store for `oid` after the trace ran: the
last successfully written document, if any. -/
def storedDoc (oid : String) (tr : List Ev) : Option Order :=
  tr.foldl
    (fun acc e =>
      match e with
      | Ev.esWrite d doc true => if d = oid then some doc else acc
      | _ => acc)
    none

/-! ## Confirmation consumer (`email-worker/src/index.js`) -/

/-- Outcome of `getOrderFromES`: the order document, `null` on a 404 from
the store, or the call throwing on any other store error. -/
inductive FetchOutcome where
  | found (o : Order)
  | notFound
  | storeThrew (msg : String)
deriving DecidableEq

/-- Outcome of the side effect `sendEmail`: success, or the call
throwing. -/
inductive SideEffect where
  | sent
  | threw (msg : String)
deriving DecidableEq

/-- What the consumer does with the delivered message. -/
inductive Disposition where
  | ack
  | nackRequeue
deriving DecidableEq

/-- Message disposition of `processOrderConfirmed`
(`email-worker/src/index.js` lines 235-330): a payload that fails to
parse throws into the catch, which `channel.nack(msg, false, true)`s;
an order absent from the store (`getOrderFromES` returned `null`) is
`channel.ack`ed without attempting the side effect; a successful
`sendEmail` is acked; a throwing `sendEmail` (or a throwing store fetch)
lands in the catch and is nacked with requeue. -/
def processOrderConfirmed (parseOk : Bool) (fetch : FetchOutcome)
    (email : SideEffect) : Disposition :=
  if !parseOk then
    Disposition.nackRequeue
  else
    match fetch with
    | FetchOutcome.notFound => Disposition.ack
    | FetchOutcome.storeThrew _ => Disposition.nackRequeue
    | FetchOutcome.found _ =>
      match email with
      | SideEffect.sent => Disposition.ack
      | SideEffect.threw _ => Disposition.nackRequeue

/-! ## Trace-context handling of the consume callback
(`email-worker/src/index.js`, `startConsumer` lines 400-451 and the span
options of `processOrderConfirmed` lines 237-259) -/

/-- A span context used as a non-hierarchical link target: the
`{traceId, spanId, isRemote, traceFlags}` object built from a parsed
`traceparent` header.  `traceFlags` is `parseInt(parts[3], 16)`, which
is `NaN` (modelled `none`) when the flags part has no leading hex
digit. -/
structure LinkCtx where
  traceId : String
  spanId : String
  isRemote : Bool
  traceFlags : Option Nat
deriving DecidableEq

/-- The span options the handler is started with: `root: true` always,
no parent span, and at most one link. -/
structure HandlerSpan where
  root : Bool
  parent : Option LinkCtx
  links : List LinkCtx
deriving DecidableEq

/-- Leading-hex-prefix semantics of JavaScript `parseInt(s, 16)`
restricted to the unsigned case: take the longest prefix of hex digits;
`NaN` (here `none`) when it is empty. -/
def jsParseIntHex (s : String) : Option Nat :=
  let digits := s.data.takeWhile (fun c => c.isDigit ∨ ('a' ≤ c ∧ c ≤ 'f') ∨ ('A' ≤ c ∧ c ≤ 'F'))
  if digits = [] then none
  else some (digits.foldl (fun a c =>
    16 * a + (if c.isDigit then c.toNat - '0'.toNat
              else if 'a' ≤ c then c.toNat - 'a'.toNat + 10
              else c.toNat - 'A'.toNat + 10)) 0)

/-- `traceparent.split('-')` of JavaScript strings, embedded structurally
over the character list. -/
def splitDashAux : List Char → List Char → List String
  | [], acc => [String.mk acc.reverse]
  | c :: rest, acc =>
      if c = '-' then String.mk acc.reverse :: splitDashAux rest []
      else splitDashAux rest (c :: acc)

/-- `s.split('-')`. -/
def splitDash (s : String) : List String :=
  splitDashAux s.data []

/-- The `channel.consume` callback of `startConsumer`: read the
`traceparent` header; when present (truthy) and splitting into exactly 4
dash-separated parts, start the handler as a fresh root with one link to
`{traceId: parts[1], spanId: parts[2], isRemote: true,
traceFlags: parseInt(parts[3], 16)}`; when the header is absent or
malformed, start the handler as a fresh root without a link.  The
message is handed to `processOrderConfirmed` in every case. -/
def consumeCallback (traceparent : Option String) : HandlerSpan :=
  match traceparent with
  | none => { root := true, parent := none, links := [] }
  | some s =>
    if s = "" then
      { root := true, parent := none, links := [] }
    else
      match splitDash s with
      | [_version, tid, sid, fl] =>
          { root := true
            parent := none
            links := [{ traceId := tid, spanId := sid, isRemote := true
                        traceFlags := jsParseIntHex fl }] }
      | _ => { root := true, parent := none, links := [] }



/-! ## Helper lemmas about the retry loops -/

/-- Every attempt span of the payment-svc loop carries the single
transaction id generated before the loop. -/
theorem apmLoop_attempts_tid (tid : String) (outs : List GatewayOutcome) :
    ∀ (attempt : Nat) (lastMsg : String) (a : AttemptRec),
      a ∈ (apmLoop tid outs attempt lastMsg).attempts → a.transaction_id = tid := by
  induction outs with
  | nil =>
    intro attempt lastMsg a ha
    simp [apmLoop] at ha
  | cons g rest ih =>
    intro attempt lastMsg a ha
    cases g with
    | approved =>
      simp [apmLoop] at ha
      simp [ha]
    | declined =>
      simp [apmLoop] at ha
      rcases ha with ha | ha
      · simp [ha]
      · exact ih _ _ _ ha
    | thrown m =>
      simp [apmLoop] at ha
      rcases ha with ha | ha
      · simp [ha]
      · exact ih _ _ _ ha

/-- Every attempt span of the OTel-variant loop carries the single
transaction id generated before the loop. -/
theorem otelLoop_attempts_tid (tid : String) (outs : List GatewayOutcome) :
    ∀ (attempt : Nat) (a : AttemptRec),
      a ∈ (otelLoop tid outs attempt).attempts → a.transaction_id = tid := by
  induction outs with
  | nil =>
    intro attempt a ha
    simp [otelLoop] at ha
  | cons g rest ih =>
    intro attempt a ha
    cases g with
    | approved =>
      simp [otelLoop] at ha
      simp [ha]
    | declined =>
      simp [otelLoop] at ha
      simp [ha]
    | thrown m =>
      simp [otelLoop] at ha
      rcases ha with ha | ha
      · simp [ha]
      · exact ih _ _ ha

/-- The OTel-variant loop returns the generated transaction id on every
result (approved, declined, and exhaustion alike). -/
theorem otelLoop_result_tid (tid : String) (outs : List GatewayOutcome) :
    ∀ attempt : Nat, (otelLoop tid outs attempt).result.transaction_id = some tid := by
  induction outs with
  | nil => intro attempt; rfl
  | cons g rest ih =>
    intro attempt
    cases g with
    | approved => rfl
    | declined => rfl
    | thrown m =>
      simp only [otelLoop]
      exact ih _

/-- When the payment-svc loop reports APPROVED, the result carries the
generated transaction id. -/
theorem apmLoop_approved_tid (tid : String) (outs : List GatewayOutcome) :
    ∀ (attempt : Nat) (lastMsg : String),
      (apmLoop tid outs attempt lastMsg).result.status = PayStatus.approved →
      (apmLoop tid outs attempt lastMsg).result.transaction_id = some tid := by
  induction outs with
  | nil =>
    intro attempt lastMsg h
    simp [apmLoop] at h
  | cons g rest ih =>
    intro attempt lastMsg h
    cases g with
    | approved => rfl
    | declined =>
      simp only [apmLoop] at h ⊢
      exact ih _ _ h
    | thrown m =>
      simp only [apmLoop] at h ⊢
      exact ih _ _ h

/-! ## Claim theorems -/

/-- Claim C10: as shipped, `simulatePaymentGateway` resolves Approved
unconditionally (every decline and infrastructure-error branch is
commented out), so for every Charge invocation — in both payment
implementations — the result is Approved with the call's transaction id
after exactly one gateway attempt; the retry, decline, and
exhaustion-Error paths are unreachable. -/
theorem shipped_gateway_always_approves_first_attempt (amount : ℚ) (tid : String) :
    processPaymentWithRetryApm (fun _ => simulatePaymentGateway amount) tid =
      { result := { status := PayStatus.approved, transaction_id := some tid,
                    message := none }
        attempts := [⟨1, tid⟩] } ∧
    processPaymentWithRetryOtel (fun _ => simulatePaymentGateway amount) tid =
      { result := { status := PayStatus.approved, transaction_id := some tid,
                    message := some "Payment approved" }
        attempts := [⟨1, tid⟩] } :=
  ⟨rfl, rfl⟩

/-- Claim C3, counterexample: in the payment-svc implementation, a Charge
call that exhausts all 3 attempts (here: declined on every attempt)
returns `{status:'ERROR', message:'Payment declined by gateway'}` — the
result does NOT carry the transaction id, and its message is the last
failure's message, not a "failed after N attempts" message. -/
theorem apm_exhaustion_result_lacks_transaction_id :
    (processPaymentWithRetryApm (fun _ => GatewayOutcome.declined) "tid-c3").result =
      { status := PayStatus.error, transaction_id := none,
        message := some "Payment declined by gateway" } ∧
    (processPaymentWithRetryApm (fun _ => GatewayOutcome.declined) "tid-c3").result.transaction_id ≠
      some "tid-c3" := by
  decide

/-- Claim C3, amended: a Charge call that exhausts all 3 attempts without
an approval reports status Error (never Declined).  The payment-svc
implementation returns the last failure's message and omits the
transaction id; the OTel-variant implementation (whose loop can only be
exhausted by three thrown gateway calls, a decline being immediately
terminal) carries the transaction id and the message
'Payment processing failed after multiple attempts'. -/
theorem exhaustion_reports_error_status (g0 g1 g2 : GatewayOutcome) (tid : String)
    (h0 : g0 ≠ GatewayOutcome.approved) (h1 : g1 ≠ GatewayOutcome.approved)
    (h2 : g2 ≠ GatewayOutcome.approved) :
    ((processPaymentWithRetryApm
        (fun i => if i = 0 then g0 else if i = 1 then g1 else g2) tid).result =
      { status := PayStatus.error, transaction_id := none,
        message := some (lastFailMsg g2) }) ∧
    (∀ m0 m1 m2 : String,
      (processPaymentWithRetryOtel
          (fun i => if i = 0 then GatewayOutcome.thrown m0
                    else if i = 1 then GatewayOutcome.thrown m1
                    else GatewayOutcome.thrown m2) tid).result =
        { status := PayStatus.error, transaction_id := some tid,
          message := some "Payment processing failed after multiple attempts" }) := by
  constructor
  · cases g0 <;> cases g1 <;> cases g2 <;>
      first
        | exact absurd rfl h0
        | exact absurd rfl h1
        | exact absurd rfl h2
        | rfl
  · intro m0 m1 m2
    rfl

/-- Witness for the amended claim C3, at the all-declined decision
sequence. -/
theorem exhaustion_reports_error_status_witness :
    ((processPaymentWithRetryApm
        (fun i => if i = 0 then GatewayOutcome.declined
                  else if i = 1 then GatewayOutcome.declined
                  else GatewayOutcome.declined) "w3").result =
      { status := PayStatus.error, transaction_id := none,
        message := some (lastFailMsg GatewayOutcome.declined) }) ∧
    (∀ m0 m1 m2 : String,
      (processPaymentWithRetryOtel
          (fun i => if i = 0 then GatewayOutcome.thrown m0
                    else if i = 1 then GatewayOutcome.thrown m1
                    else GatewayOutcome.thrown m2) "w3").result =
        { status := PayStatus.error, transaction_id := some "w3",
          message := some "Payment processing failed after multiple attempts" }) :=
  exhaustion_reports_error_status GatewayOutcome.declined GatewayOutcome.declined
    GatewayOutcome.declined "w3" (by decide) (by decide) (by decide)

/-- Claim C4, counterexample: on the decision sequence
(Declined, Approved, Approved) — a decline with attempts remaining — the
payment-svc implementation retries the decline and ends Approved while
the OTel-variant implementation ends Declined immediately, so the two
embedded Charge functions are not behaviorally equivalent. -/
theorem decline_then_approve_distinguishes_implementations :
    (processPaymentWithRetryApm
        (fun i => if i = 0 then GatewayOutcome.declined else GatewayOutcome.approved)
        "t4").result.status = PayStatus.approved ∧
    (processPaymentWithRetryOtel
        (fun i => if i = 0 then GatewayOutcome.declined else GatewayOutcome.approved)
        "t4").result.status = PayStatus.declined ∧
    processPaymentWithRetryApm
        (fun i => if i = 0 then GatewayOutcome.declined else GatewayOutcome.approved)
        "t4" ≠
      processPaymentWithRetryOtel
        (fun i => if i = 0 then GatewayOutcome.declined else GatewayOutcome.approved)
        "t4" := by
  decide

/-- Claim C4, amended: the two implementations disagree on decline
handling — for any decision sequence whose first decision is Declined
and whose second is Approved, the payment-svc implementation retries the
decline (two attempts, final status Approved) while the OTel-variant
implementation treats the decline as immediately terminal (one attempt,
final status Declined). -/
theorem apm_retries_declines_otel_treats_terminal (gate : Nat → GatewayOutcome)
    (tid : String) (h0 : gate 0 = GatewayOutcome.declined)
    (h1 : gate 1 = GatewayOutcome.approved) :
    (processPaymentWithRetryApm gate tid).result.status = PayStatus.approved ∧
    (processPaymentWithRetryApm gate tid).attempts.length = 2 ∧
    (processPaymentWithRetryOtel gate tid).result.status = PayStatus.declined ∧
    (processPaymentWithRetryOtel gate tid).attempts.length = 1 := by
  unfold processPaymentWithRetryApm processPaymentWithRetryOtel
  rw [h0, h1]
  exact ⟨rfl, rfl, rfl, rfl⟩

/-- Witness for the amended claim C4, at the concrete decision sequence
(Declined, Approved, Approved). -/
theorem apm_retries_declines_otel_treats_terminal_witness :
    (processPaymentWithRetryApm
        (fun i => if i = 0 then GatewayOutcome.declined else GatewayOutcome.approved)
        "w4").result.status = PayStatus.approved ∧
    (processPaymentWithRetryApm
        (fun i => if i = 0 then GatewayOutcome.declined else GatewayOutcome.approved)
        "w4").attempts.length = 2 ∧
    (processPaymentWithRetryOtel
        (fun i => if i = 0 then GatewayOutcome.declined else GatewayOutcome.approved)
        "w4").result.status = PayStatus.declined ∧
    (processPaymentWithRetryOtel
        (fun i => if i = 0 then GatewayOutcome.declined else GatewayOutcome.approved)
        "w4").attempts.length = 1 :=
  apm_retries_declines_otel_treats_terminal
    (fun i => if i = 0 then GatewayOutcome.declined else GatewayOutcome.approved)
    "w4" (by decide) (by decide)

/-- Claim C5, counterexample: the payment-svc implementation's
exhaustion result (here after three thrown gateway calls) carries no
transaction id at all, so the generated transaction id is not present in
every returned result of the call. -/
theorem apm_error_result_omits_transaction_id :
    (processPaymentWithRetryApm (fun _ => GatewayOutcome.thrown "gateway down")
        "tid-c5").result.status = PayStatus.error ∧
    (processPaymentWithRetryApm (fun _ => GatewayOutcome.thrown "gateway down")
        "tid-c5").result.transaction_id = none ∧
    (processPaymentWithRetryApm (fun _ => GatewayOutcome.thrown "gateway down")
        "tid-c5").result.transaction_id ≠ some "tid-c5" := by
  decide

/-- Claim C5, amended: within a single Charge call the transaction id is
generated exactly once before the attempt loop and is identical across
all attempts in both implementations; the OTel-variant implementation
carries it in every returned result, while the payment-svc implementation
carries it in its Approved results only (its exhaustion Error result
omits it); across distinct Charge calls drawing distinct uuids the
returned transaction ids differ. -/
theorem transaction_id_once_per_charge (gate : Nat → GatewayOutcome)
    (tid tid2 : String) :
    (∀ a ∈ (processPaymentWithRetryApm gate tid).attempts, a.transaction_id = tid) ∧
    (∀ a ∈ (processPaymentWithRetryOtel gate tid).attempts, a.transaction_id = tid) ∧
    ((processPaymentWithRetryApm gate tid).result.status = PayStatus.approved →
      (processPaymentWithRetryApm gate tid).result.transaction_id = some tid) ∧
    (processPaymentWithRetryOtel gate tid).result.transaction_id = some tid ∧
    (tid ≠ tid2 →
      (processPaymentWithRetryOtel gate tid).result.transaction_id ≠
        (processPaymentWithRetryOtel gate tid2).result.transaction_id) := by
  refine ⟨fun a ha => apmLoop_attempts_tid tid _ _ _ a ha,
          fun a ha => otelLoop_attempts_tid tid _ _ a ha,
          fun h => apmLoop_approved_tid tid _ _ _ h,
          otelLoop_result_tid tid _ _, ?_⟩
  intro hne
  unfold processPaymentWithRetryOtel
  rw [otelLoop_result_tid tid _ _, otelLoop_result_tid tid2 _ _]
  simp [hne]

/-- Witness for the amended claim C5, at an always-approving gateway and
the distinct uuid draws "w5a", "w5b". -/
theorem transaction_id_once_per_charge_witness :
    (⟨1, "w5a"⟩ : AttemptRec).transaction_id = "w5a" ∧
    (processPaymentWithRetryApm (fun _ => GatewayOutcome.approved)
        "w5a").result.transaction_id = some "w5a" ∧
    (processPaymentWithRetryOtel (fun _ => GatewayOutcome.approved)
        "w5a").result.transaction_id ≠
      (processPaymentWithRetryOtel (fun _ => GatewayOutcome.approved)
        "w5b").result.transaction_id :=
  ⟨(transaction_id_once_per_charge (fun _ => GatewayOutcome.approved) "w5a" "w5b").1
      ⟨1, "w5a"⟩ (by decide),
   (transaction_id_once_per_charge (fun _ => GatewayOutcome.approved) "w5a" "w5b").2.2.1
      (by decide),
   (transaction_id_once_per_charge (fun _ => GatewayOutcome.approved) "w5a" "w5b").2.2.2.2
      (by decide)⟩

/-- Infrastructure bundle with a completed payment RPC: the store write
succeeds iff `persist`, the broker publish succeeds iff `publish`. -/
def infraWith (pr : PayResult) (persist publish : Bool) : Infra :=
  { rpc := some pr, persistOk := persist, publishOk := publish }

/-- Claim C1: for every valid CreateOrder request whose payment Charge
returns Approved (with working store and broker), the handler answers
201/created, performs exactly one document-store write for the order —
whose document has status confirmed and paymentId equal to the payment's
transaction id — and publishes exactly one confirmation event, carrying
that confirmed document. -/
theorem approved_charge_confirms_and_publishes_once (req : OrderReq) (orderId : String)
    (now : Nat) (pr : PayResult) (hv : validOrderReq req = true)
    (hap : pr.status = PayStatus.approved) :
    (postOrder req orderId now (infraWith pr true true)).1 =
      OrderResponse.created orderId OrderStatus.confirmed ∧
    ((postOrder req orderId now (infraWith pr true true)).2.filter
        (isWriteFor orderId)).length = 1 ∧
    ((postOrder req orderId now (infraWith pr true true)).2.filter isPublish).length = 1 ∧
    ∃ doc,
      storedDoc orderId (postOrder req orderId now (infraWith pr true true)).2 = some doc ∧
      doc.status = OrderStatus.confirmed ∧
      doc.paymentId = pr.transaction_id ∧
      (postOrder req orderId now (infraWith pr true true)).2.filter isPublish =
        [Ev.publish doc true] := by
  have hred : postOrder req orderId now (infraWith pr true true) =
      (OrderResponse.created orderId OrderStatus.confirmed,
        [Ev.charge orderId (req.amount.getD 0),
          Ev.esWrite orderId
            { mkPendingOrder req orderId now with
                status := OrderStatus.confirmed, paymentId := pr.transaction_id } true,
          Ev.publish
            { mkPendingOrder req orderId now with
                status := OrderStatus.confirmed, paymentId := pr.transaction_id } true]) := by
    simp [postOrder, infraWith, hv, hap]
  rw [hred]
  refine ⟨rfl, ?_, ?_,
    ⟨{ mkPendingOrder req orderId now with
        status := OrderStatus.confirmed, paymentId := pr.transaction_id },
      ?_, rfl, rfl, ?_⟩⟩
  · simp [isWriteFor]
  · simp [isPublish]
  · simp [storedDoc]
  · simp [isPublish]

/-- Witness for claim C1, at a concrete valid request and approved
charge result. -/
theorem approved_charge_confirms_and_publishes_once_witness :
    (postOrder
        { productId := some "1", productName := some "Laptop", quantity := some 2,
          amount := some 100, customerEmail := some "a@b.com" } "w1" 0
        (infraWith
          { status := PayStatus.approved, transaction_id := some "pay-w1", message := none }
          true true)).1 =
      OrderResponse.created "w1" OrderStatus.confirmed ∧
    ((postOrder
        { productId := some "1", productName := some "Laptop", quantity := some 2,
          amount := some 100, customerEmail := some "a@b.com" } "w1" 0
        (infraWith
          { status := PayStatus.approved, transaction_id := some "pay-w1", message := none }
          true true)).2.filter (isWriteFor "w1")).length = 1 ∧
    ((postOrder
        { productId := some "1", productName := some "Laptop", quantity := some 2,
          amount := some 100, customerEmail := some "a@b.com" } "w1" 0
        (infraWith
          { status := PayStatus.approved, transaction_id := some "pay-w1", message := none }
          true true)).2.filter isPublish).length = 1 ∧
    ∃ doc,
      storedDoc "w1"
          (postOrder
            { productId := some "1", productName := some "Laptop", quantity := some 2,
              amount := some 100, customerEmail := some "a@b.com" } "w1" 0
            (infraWith
              { status := PayStatus.approved, transaction_id := some "pay-w1",
                message := none }
              true true)).2 = some doc ∧
      doc.status = OrderStatus.confirmed ∧
      doc.paymentId = some "pay-w1" ∧
      (postOrder
          { productId := some "1", productName := some "Laptop", quantity := some 2,
            amount := some 100, customerEmail := some "a@b.com" } "w1" 0
          (infraWith
            { status := PayStatus.approved, transaction_id := some "pay-w1",
              message := none }
            true true)).2.filter isPublish = [Ev.publish doc true] :=
  approved_charge_confirms_and_publishes_once
    { productId := some "1", productName := some "Laptop", quantity := some 2,
      amount := some 100, customerEmail := some "a@b.com" } "w1" 0
    { status := PayStatus.approved, transaction_id := some "pay-w1", message := none }
    (by decide) rfl

/-- Claim C2: for every valid CreateOrder request whose payment Charge
returns anything other than Approved (with a working store, and whatever
the broker's state), the handler records the order exactly once with
status payment_failed, publishes nothing, and answers a client-visible
400 failure carrying the payment result's message. -/
theorem failed_charge_records_payment_failed (req : OrderReq) (orderId : String)
    (now : Nat) (pr : PayResult) (pb : Bool) (hv : validOrderReq req = true)
    (hne : pr.status ≠ PayStatus.approved) :
    (postOrder req orderId now (infraWith pr true pb)).1 =
      OrderResponse.paymentDeclined orderId OrderStatus.payment_failed pr.message ∧
    ((postOrder req orderId now (infraWith pr true pb)).2.filter
        (isWriteFor orderId)).length = 1 ∧
    ((postOrder req orderId now (infraWith pr true pb)).2.filter isPublish).length = 0 ∧
    ∃ doc,
      storedDoc orderId (postOrder req orderId now (infraWith pr true pb)).2 = some doc ∧
      doc.status = OrderStatus.payment_failed := by
  have hred : postOrder req orderId now (infraWith pr true pb) =
      (OrderResponse.paymentDeclined orderId OrderStatus.payment_failed pr.message,
        [Ev.charge orderId (req.amount.getD 0),
          Ev.esWrite orderId
            { mkPendingOrder req orderId now with status := OrderStatus.payment_failed }
            true]) := by
    simp [postOrder, infraWith, hv, hne]
  rw [hred]
  refine ⟨rfl, ?_, ?_,
    ⟨{ mkPendingOrder req orderId now with status := OrderStatus.payment_failed },
      ?_, rfl⟩⟩
  · simp [isWriteFor]
  · simp [isPublish]
  · simp [storedDoc]

/-- Witness for claim C2, at a concrete valid request and a declined
charge result. -/
theorem failed_charge_records_payment_failed_witness :
    (postOrder
        { productId := some "2", productName := none, quantity := some 1,
          amount := some 250, customerEmail := some "c@d.com" } "w2" 0
        (infraWith
          { status := PayStatus.declined, transaction_id := some "pay-w2",
            message := some "Payment declined by processor" }
          true true)).1 =
      OrderResponse.paymentDeclined "w2" OrderStatus.payment_failed
        (some "Payment declined by processor") ∧
    ((postOrder
        { productId := some "2", productName := none, quantity := some 1,
          amount := some 250, customerEmail := some "c@d.com" } "w2" 0
        (infraWith
          { status := PayStatus.declined, transaction_id := some "pay-w2",
            message := some "Payment declined by processor" }
          true true)).2.filter (isWriteFor "w2")).length = 1 ∧
    ((postOrder
        { productId := some "2", productName := none, quantity := some 1,
          amount := some 250, customerEmail := some "c@d.com" } "w2" 0
        (infraWith
          { status := PayStatus.declined, transaction_id := some "pay-w2",
            message := some "Payment declined by processor" }
          true true)).2.filter isPublish).length = 0 ∧
    ∃ doc,
      storedDoc "w2"
          (postOrder
            { productId := some "2", productName := none, quantity := some 1,
              amount := some 250, customerEmail := some "c@d.com" } "w2" 0
            (infraWith
              { status := PayStatus.declined, transaction_id := some "pay-w2",
                message := some "Payment declined by processor" }
              true true)).2 = some doc ∧
      doc.status = OrderStatus.payment_failed :=
  failed_charge_records_payment_failed
    { productId := some "2", productName := none, quantity := some 1,
      amount := some 250, customerEmail := some "c@d.com" } "w2" 0
    { status := PayStatus.declined, transaction_id := some "pay-w2",
      message := some "Payment declined by processor" } true
    (by decide) (by decide)

/-- Claim C6, counterexample: a CreateOrder request with the invalid
quantity -5 passes both the gateway's and the orchestrator's
truthiness-only validation, the payment call is made, and the order is
persisted — no client validation error is returned. -/
theorem negative_quantity_bypasses_validation :
    validOrderReq
      { productId := some "1", productName := none, quantity := some (-5),
        amount := some 100, customerEmail := some "user@example.com" } = true ∧
    checkoutValid (some "1") (some (-5)) (some "user@example.com") = true ∧
    (postOrder
        { productId := some "1", productName := none, quantity := some (-5),
          amount := some 100, customerEmail := some "user@example.com" } "ord-neg" 0
        (infraWith
          { status := PayStatus.approved, transaction_id := some "t6", message := none }
          true true)).1 =
      OrderResponse.created "ord-neg" OrderStatus.confirmed ∧
    ((postOrder
        { productId := some "1", productName := none, quantity := some (-5),
          amount := some 100, customerEmail := some "user@example.com" } "ord-neg" 0
        (infraWith
          { status := PayStatus.approved, transaction_id := some "t6", message := none }
          true true)).2.filter isCharge).length = 1 ∧
    ((postOrder
        { productId := some "1", productName := none, quantity := some (-5),
          amount := some 100, customerEmail := some "user@example.com" } "ord-neg" 0
        (infraWith
          { status := PayStatus.approved, transaction_id := some "t6", message := none }
          true true)).2.filter (isWriteFor "ord-neg")).length = 1 := by
  decide

/-- Claim C6, amended: the validations of the gateway's POST /checkout
and the orchestrator's POST /order are JS-truthiness checks only — when
productId or customerEmail is missing or empty, or quantity is missing
or zero, the orchestrator returns the client error and performs no
payment call and no persistence write (and the gateway check also
fails); a merely negative quantity, however, is accepted. -/
theorem falsy_fields_fail_fast (req : OrderReq) (orderId : String) (now : Nat)
    (infra : Infra)
    (h : req.productId = none ∨ req.productId = some "" ∨
         req.quantity = none ∨ req.quantity = some 0 ∨
         req.customerEmail = none ∨ req.customerEmail = some "") :
    postOrder req orderId now infra = (OrderResponse.missingParams, []) ∧
    checkoutValid req.productId req.quantity req.customerEmail = false := by
  have hv : validOrderReq req = false := by
    rcases h with h | h | h | h | h | h <;>
      simp [validOrderReq, truthyStr, truthyInt, truthyRat, h]
  have hc : checkoutValid req.productId req.quantity req.customerEmail = false := by
    rcases h with h | h | h | h | h | h <;>
      simp [checkoutValid, truthyStr, truthyInt, h]
  exact ⟨by simp [postOrder, hv], hc⟩

/-- Witness for the amended claim C6, at a request whose quantity is the
falsy value 0. -/
theorem falsy_fields_fail_fast_witness :
    postOrder
        { productId := some "1", productName := none, quantity := some 0,
          amount := some 10, customerEmail := some "a@b.com" } "w6" 0
        { rpc := none, persistOk := true, publishOk := true } =
      (OrderResponse.missingParams, []) ∧
    checkoutValid (some "1") (some 0) (some "a@b.com") = false :=
  falsy_fields_fail_fast
    { productId := some "1", productName := none, quantity := some 0,
      amount := some 10, customerEmail := some "a@b.com" } "w6" 0
    { rpc := none, persistOk := true, publishOk := true }
    (Or.inr (Or.inr (Or.inr (Or.inl rfl))))

/-- Claim C7: when the store write of a confirmed order succeeds and the
subsequent confirmation-event publish fails, the persisted order is left
unchanged — exactly one write for the order occurred, the stored
document still has status confirmed with its paymentId, and no further
write happens (the publish failure is only reported, as a 500 in this
variant). -/
theorem publish_failure_leaves_confirmed_order_intact (req : OrderReq)
    (orderId : String) (now : Nat) (pr : PayResult)
    (hv : validOrderReq req = true) (hap : pr.status = PayStatus.approved) :
    (postOrder req orderId now (infraWith pr true false)).1 = OrderResponse.serverError ∧
    ((postOrder req orderId now (infraWith pr true false)).2.filter
        (isWriteFor orderId)).length = 1 ∧
    ∃ doc,
      storedDoc orderId (postOrder req orderId now (infraWith pr true false)).2 =
        some doc ∧
      doc.status = OrderStatus.confirmed ∧
      doc.paymentId = pr.transaction_id := by
  have hred : postOrder req orderId now (infraWith pr true false) =
      (OrderResponse.serverError,
        [Ev.charge orderId (req.amount.getD 0),
          Ev.esWrite orderId
            { mkPendingOrder req orderId now with
                status := OrderStatus.confirmed, paymentId := pr.transaction_id } true,
          Ev.publish
            { mkPendingOrder req orderId now with
                status := OrderStatus.confirmed, paymentId := pr.transaction_id }
            false]) := by
    simp [postOrder, infraWith, hv, hap]
  rw [hred]
  refine ⟨rfl, ?_,
    ⟨{ mkPendingOrder req orderId now with
        status := OrderStatus.confirmed, paymentId := pr.transaction_id },
      ?_, rfl, rfl⟩⟩
  · simp [isWriteFor]
  · simp [storedDoc]

/-- Witness for claim C7, at a concrete valid request, an approved
charge, and a failing broker. -/
theorem publish_failure_leaves_confirmed_order_intact_witness :
    (postOrder
        { productId := some "3", productName := some "Book", quantity := some 1,
          amount := some 40, customerEmail := some "e@f.com" } "w7" 0
        (infraWith
          { status := PayStatus.approved, transaction_id := some "pay-w7", message := none }
          true false)).1 = OrderResponse.serverError ∧
    ((postOrder
        { productId := some "3", productName := some "Book", quantity := some 1,
          amount := some 40, customerEmail := some "e@f.com" } "w7" 0
        (infraWith
          { status := PayStatus.approved, transaction_id := some "pay-w7", message := none }
          true false)).2.filter (isWriteFor "w7")).length = 1 ∧
    ∃ doc,
      storedDoc "w7"
          (postOrder
            { productId := some "3", productName := some "Book", quantity := some 1,
              amount := some 40, customerEmail := some "e@f.com" } "w7" 0
            (infraWith
              { status := PayStatus.approved, transaction_id := some "pay-w7",
                message := none }
              true false)).2 = some doc ∧
      doc.status = OrderStatus.confirmed ∧
      doc.paymentId = some "pay-w7" :=
  publish_failure_leaves_confirmed_order_intact
    { productId := some "3", productName := some "Book", quantity := some 1,
      amount := some 40, customerEmail := some "e@f.com" } "w7" 0
    { status := PayStatus.approved, transaction_id := some "pay-w7", message := none }
    (by decide) rfl

/-- Claim C8: the consumer's disposition matches the per-message
algorithm — a message whose referenced order is absent from the store is
acknowledged (not requeued); a found order with a successful side effect
is acknowledged; a throwing side effect is negatively acknowledged with
requeue. -/
theorem consumer_disposition_matches_algorithm (o : Order) (m : String)
    (email : SideEffect) :
    processOrderConfirmed true FetchOutcome.notFound email = Disposition.ack ∧
    processOrderConfirmed true (FetchOutcome.found o) SideEffect.sent =
      Disposition.ack ∧
    processOrderConfirmed true (FetchOutcome.found o) (SideEffect.threw m) =
      Disposition.nackRequeue :=
  ⟨rfl, rfl, rfl⟩

/-- Claim C9: an absent traceparent header, or one that does not split
into exactly 4 dash-separated parts, never aborts message processing —
the handler span is still created, as a root, merely without a link and
without a parent; a well-formed 4-part header makes the handler run as a
fresh root (no parent, so no parent-child continuation) carrying exactly
one non-hierarchical link to the originating trace and span
identifiers. -/
theorem traceparent_links_without_aborting :
    consumeCallback none = { root := true, parent := none, links := [] } ∧
    (∀ s : String, (splitDash s).length ≠ 4 →
      consumeCallback (some s) = { root := true, parent := none, links := [] }) ∧
    (∀ s ver tid sid fl : String, splitDash s = [ver, tid, sid, fl] →
      consumeCallback (some s) =
        { root := true
          parent := none
          links := [{ traceId := tid, spanId := sid, isRemote := true
                      traceFlags := jsParseIntHex fl }] }) := by
  refine ⟨rfl, ?_, ?_⟩
  · intro s hs
    by_cases he : s = ""
    · subst he; rfl
    · simp only [consumeCallback]
      rw [if_neg he]
      revert hs
      generalize splitDash s = parts
      intro hs
      rcases parts with _ | ⟨a, _ | ⟨b, _ | ⟨c, _ | ⟨d, _ | ⟨e, tl⟩⟩⟩⟩⟩
      · rfl
      · rfl
      · rfl
      · rfl
      · exact absurd rfl hs
      · rfl
  · intro s ver tid sid fl hsp
    have he : s ≠ "" := by
      intro h
      subst h
      have hempty : splitDash "" = [""] := rfl
      rw [hempty] at hsp
      simp at hsp
    simp only [consumeCallback]
    rw [if_neg he, hsp]

/-- Witness for claim C9: the malformed header "bad-header" (2 parts) is
processed without a link, and the well-formed header
"00-abc123-def456-01" yields a fresh root carrying one link to trace
"abc123", span "def456". -/
theorem traceparent_links_without_aborting_witness :
    consumeCallback (some "bad-header") =
      { root := true, parent := none, links := [] } ∧
    consumeCallback (some "00-abc123-def456-01") =
      { root := true
        parent := none
        links := [{ traceId := "abc123", spanId := "def456", isRemote := true
                    traceFlags := jsParseIntHex "01" }] } :=
  ⟨traceparent_links_without_aborting.2.1 "bad-header" (by decide),
   traceparent_links_without_aborting.2.2 "00-abc123-def456-01" "00" "abc123" "def456"
     "01" (by decide)⟩
